import Mathlib

/-!
Shallow embedding of the WebSocket real-time communication core of the
telemedicine desktop application (`src-tauri/src/services/websocket.rs`).

Modelling conventions:
* `tokio` locks and `Arc` sharing are elided: each operation is a pure
  function from the client (or registry) state to the new state together
  with its `Result` value, following the source line by line under the
  sequential semantics of one operation at a time.
* `connect_async` and the transport are abstracted by an `outcome`
  parameter: `none` means the handshake succeeded, `some e` means it
  failed with transport error `e` (the source formats it into
  `"WebSocket connection failed: {e}"`).
* `serde_json::to_string` is total on every event this module builds
  (all fields are strings, options, enums and timestamps), and
  `println!` is pure I/O, so the "send" path of a connected client only
  constructs the event value and returns `Ok(())`, exactly as the
  source does (`websocket.rs` lines 156-179 build, serialize and log
  the frame; there is no fallible network write).
* Inside `process_message_queue` the outcome of each `send_message`
  call depends on the connection status read at that moment, which a
  concurrent task may change between iterations; the per-message
  outcome is therefore abstracted by a `deliver : QueuedMessage → Bool`
  oracle.  A failing send, however, never returns `Err` to the loop:
  `send_message` first calls `add_to_queue` (websocket.rs line 152),
  which locks the `message_queue` mutex that `process_message_queue`
  (line 238) is already holding across the loop, and — tokio mutexes
  not being reentrant — deadlocks there, so the `break` and the final
  `retain` only ever execute after every send succeeded.
  `process_message_queue` below models the queue contents after such a
  completing (all-sends-succeed) run, the program's only completing
  flush path; `process_message_queue_run` models the flush including
  its failure behaviour, with `none` standing for a call that never
  completes and never modifies the queue.
-/

namespace Telemed

/-- `ConnectionStatus` enum (websocket.rs lines 13-20). -/
inductive ConnectionStatus where
  | Disconnected
  | Connecting
  | Connected
  | Reconnecting
  | Error (reason : String)
deriving DecidableEq

/-- `MessageType` enum from `models/message.rs` (lines 25-31). -/
inductive MessageType where
  | Text
  | Image
  | Voice
  | File
  | Template
deriving DecidableEq

/-- `SenderType` enum from `models/message.rs`. -/
inductive SenderType where
  | Doctor
  | Patient
  | System
deriving DecidableEq

/-- `SyncStatus` enum from `models/message.rs` (lines 213-219). -/
inductive SyncStatus where
  | Pending
  | Syncing
  | Synced
  | Failed
  | Conflict
deriving DecidableEq

/-- `ReadStatus` enum from `models/message.rs`. -/
inductive ReadStatus where
  | Unread
  | Read
deriving DecidableEq

/-- `QueuedMessage` struct (websocket.rs lines 61-70); `created_at` is a
`chrono::DateTime<Utc>` modelled as an integer timestamp. -/
structure QueuedMessage where
  id : String
  consultation_id : String
  message_type : MessageType
  content : String
  file_path : Option String
  retry_count : Nat
  created_at : Int
deriving DecidableEq

/-- The fields of `models::Message` that `send_message` populates
(websocket.rs lines 159-171). -/
structure Message where
  id : String
  consultation_id : String
  sender_type : SenderType
  message_type : MessageType
  content : Option String
  file_path : Option String
  file_size : Option Nat
  mime_type : Option String
  timestamp : Int
  sync_status : SyncStatus
  read_status : ReadStatus
deriving DecidableEq

/-- `WebSocketEvent` enum (websocket.rs lines 23-58). -/
inductive WebSocketEvent where
  | Message (consultation_id : String) (message : Telemed.Message)
  | ConsultationUpdate (consultation_id status : String)
  | Typing (consultation_id user_id : String) (is_typing : Bool)
  | ReadReceipt (consultation_id message_id read_by : String)
  | ConnectionAck (user_id session_id : String)
  | Error (code message : String)
deriving DecidableEq

/-- The outbound control frames built by `subscribe_to_consultation` and
`unsubscribe_from_consultation` (websocket.rs lines 184-200, `json!`
values tagged `"subscribe"` / `"unsubscribe"`). -/
inductive ControlFrame where
  | subscribe (consultation_id : String)
  | unsubscribe (consultation_id : String)
deriving DecidableEq

/-- The mutable state of a `WebSocketClient` (websocket.rs lines 73-82):
the `Arc<RwLock<_>>` / `Arc<Mutex<_>>` cells are flattened into plain
fields.  `event_sender` and `reconnect_delay` carry no state relevant to
the verified properties (the delay only times the backoff sleep). -/
structure WebSocketClient where
  url : String
  auth_token : Option String
  connection_status : ConnectionStatus
  message_queue : List QueuedMessage
  reconnect_attempts : Nat
  max_reconnect_attempts : Nat
deriving DecidableEq

/-- `WebSocketClient::new` (websocket.rs lines 85-100). -/
def WebSocketClient.new (url : String) : WebSocketClient :=
  { url := url
    auth_token := none
    connection_status := ConnectionStatus.Disconnected
    message_queue := []
    reconnect_attempts := 0
    max_reconnect_attempts := 5 }

/-- `WebSocketClient::set_auth_token` (websocket.rs lines 103-105). -/
def WebSocketClient.set_auth_token (c : WebSocketClient) (token : String) :
    WebSocketClient :=
  { c with auth_token := some token }

/-- `WebSocketClient::get_connection_status` (websocket.rs lines 108-110). -/
def WebSocketClient.get_connection_status (c : WebSocketClient) :
    ConnectionStatus :=
  c.connection_status

/-- The URL actually dialled by `connect` (websocket.rs lines 117-121):
the auth token is appended as a query parameter when present. -/
def WebSocketClient.connect_url (c : WebSocketClient) : String :=
  match c.auth_token with
  | some token =>
      c.url ++ (if c.url.contains '?' then "&" else "?") ++ "token=" ++ token
  | none => c.url

/-- `WebSocketClient::add_to_queue` (websocket.rs lines 276-280):
`Vec::push` appends at the back. -/
def WebSocketClient.add_to_queue (c : WebSocketClient) (m : QueuedMessage) :
    WebSocketClient :=
  { c with message_queue := c.message_queue ++ [m] }

/-- The `WebSocketEvent::Message` value built by `send_message`
(websocket.rs lines 157-172). -/
def build_message_event (m : QueuedMessage) : WebSocketEvent :=
  WebSocketEvent.Message m.consultation_id
    { id := m.id
      consultation_id := m.consultation_id
      sender_type := SenderType.Doctor
      message_type := m.message_type
      content := some m.content
      file_path := m.file_path
      file_size := none
      mime_type := none
      timestamp := m.created_at
      sync_status := SyncStatus.Pending
      read_status := ReadStatus.Unread }

/-- `WebSocketClient::send_message` (websocket.rs lines 147-180).  When
not connected the message is pushed onto the queue and a non-fatal
"queued" error is returned; when connected the event is built,
serialized (total) and logged, and `Ok(())` is returned. -/
def WebSocketClient.send_message (c : WebSocketClient) (m : QueuedMessage) :
    WebSocketClient × Except String Unit :=
  if c.connection_status ≠ ConnectionStatus.Connected then
    (c.add_to_queue m, Except.error "WebSocket not connected, message queued")
  else
    let _frame := build_message_event m
    (c, Except.ok ())

/-- `WebSocketClient::subscribe_to_consultation` (websocket.rs lines
183-193): builds and logs a `subscribe` control frame; the client state
is not touched (the source keeps no subscription set). -/
def WebSocketClient.subscribe_to_consultation (c : WebSocketClient)
    (consultation_id : String) : WebSocketClient × Except String Unit :=
  let _frame := ControlFrame.subscribe consultation_id
  (c, Except.ok ())

/-- `WebSocketClient::unsubscribe_from_consultation` (websocket.rs lines
196-206). -/
def WebSocketClient.unsubscribe_from_consultation (c : WebSocketClient)
    (consultation_id : String) : WebSocketClient × Except String Unit :=
  let _frame := ControlFrame.unsubscribe consultation_id
  (c, Except.ok ())

/-- `WebSocketClient::send_read_receipt` (websocket.rs lines 209-220). -/
def WebSocketClient.send_read_receipt (c : WebSocketClient)
    (consultation_id message_id : String) : WebSocketClient × Except String Unit :=
  let _frame := WebSocketEvent.ReadReceipt consultation_id message_id "doctor"
  (c, Except.ok ())

/-- `WebSocketClient::send_typing_status` (websocket.rs lines 223-234). -/
def WebSocketClient.send_typing_status (c : WebSocketClient)
    (consultation_id : String) (is_typing : Bool) :
    WebSocketClient × Except String Unit :=
  let _frame := WebSocketEvent.Typing consultation_id "doctor" is_typing
  (c, Except.ok ())

/-- The `processed_messages` id list accumulated by
`process_message_queue` (websocket.rs lines 239-252): successful ids in
order, stopping at — and excluding — the first failed send (`break`). -/
def processedIds (deliver : QueuedMessage → Bool) :
    List QueuedMessage → List String
  | [] => []
  | m :: rest =>
      if deliver m then m.id :: processedIds deliver rest else []

/-- `WebSocketClient::process_message_queue` (websocket.rs lines
237-258) on the queue contents, for a COMPLETING run — one in which
every send succeeds, the program's only completing flush path (see the
module comment and `process_message_queue_run`): after the loop,
`retain` keeps exactly the messages whose id is not in
`processed_messages`. -/
def process_message_queue (deliver : QueuedMessage → Bool)
    (queue : List QueuedMessage) : List QueuedMessage :=
  let processed := processedIds deliver queue
  queue.filter (fun msg => !(processed.contains msg.id))

/-- The flush loop of `process_message_queue` (websocket.rs lines
241-252) including its failure behaviour: `some ids` when every send
succeeds and the loop finishes with `processed_messages = ids`; `none`
when some send fails, because the failing `send_message` calls
`add_to_queue`, which re-locks the `message_queue` mutex already held
by the flush (lines 152, 238, 277) and deadlocks before returning, so
the loop never gets its `Err` and never reaches `break`. -/
def flush_loop (deliver : QueuedMessage → Bool) :
    List QueuedMessage → Option (List String)
  | [] => some []
  | m :: rest =>
      if deliver m then (flush_loop deliver rest).map (fun ids => m.id :: ids)
      else none

/-- `WebSocketClient::process_message_queue` (websocket.rs lines
237-258) including its failure path: `some q2` means the flush
completed (every send succeeded) and `retain` left the queue contents
`q2`; `none` means some send failed, the call self-deadlocked inside
`add_to_queue` and never completed — `retain` never ran and the queue
was not modified. -/
def process_message_queue_run (deliver : QueuedMessage → Bool)
    (queue : List QueuedMessage) : Option (List QueuedMessage) :=
  (flush_loop deliver queue).map
    (fun processed => queue.filter (fun msg => !(processed.contains msg.id)))

/-- `WebSocketClient::connect` (websocket.rs lines 113-139).  The status
is unconditionally set to `Connecting`; on handshake success the status
becomes `Connected`, `reconnect_attempts` is reset and
`start_message_loop` immediately flushes the queue (lines 330-333),
where each send succeeds because the status just read is `Connected`;
on failure the status becomes `Error` and the error is returned. -/
def WebSocketClient.connect (c : WebSocketClient) (outcome : Option String) :
    WebSocketClient × Except String Unit :=
  let c1 := { c with connection_status := ConnectionStatus.Connecting }
  match outcome with
  | none =>
      let c2 := { c1 with connection_status := ConnectionStatus.Connected,
                          reconnect_attempts := 0 }
      let deliver := fun (_ : QueuedMessage) =>
        decide (c2.connection_status = ConnectionStatus.Connected)
      let flushed := process_message_queue deliver c2.message_queue
      let c3 := { c2 with message_queue := flushed }
      (c3, Except.ok ())
  | some e =>
      let msg := "WebSocket connection failed: " ++ e
      ({ c1 with connection_status := ConnectionStatus.Error msg },
       Except.error msg)

/-- `WebSocketClient::disconnect` (websocket.rs lines 142-144). -/
def WebSocketClient.disconnect (c : WebSocketClient) : WebSocketClient :=
  { c with connection_status := ConnectionStatus.Disconnected }

/-- `WebSocketClient::clear_message_queue` (websocket.rs lines 266-268). -/
def WebSocketClient.clear_message_queue (c : WebSocketClient) : WebSocketClient :=
  { c with message_queue := [] }

/-- `WebSocketClient::get_queued_message_count` (websocket.rs lines 261-263). -/
def WebSocketClient.get_queued_message_count (c : WebSocketClient) : Nat :=
  c.message_queue.length

/-- `WebSocketClient::increment_reconnect_attempts` (websocket.rs lines
288-292): adds one and returns the new value. -/
def WebSocketClient.increment_reconnect_attempts (c : WebSocketClient) :
    WebSocketClient × Nat :=
  ({ c with reconnect_attempts := c.reconnect_attempts + 1 },
   c.reconnect_attempts + 1)

/-- `WebSocketClient::attempt_reconnect` (websocket.rs lines 345-362):
increment the counter; if it is still within `max_reconnect_attempts`,
go `Reconnecting`, sleep (elided) and call `connect` once — a failure of
that call is only logged, nothing is retried further; otherwise set the
terminal error status. -/
def WebSocketClient.attempt_reconnect (c : WebSocketClient)
    (outcome : Option String) : WebSocketClient :=
  let p := c.increment_reconnect_attempts
  if p.2 ≤ p.1.max_reconnect_attempts then
    let c2 := { p.1 with connection_status := ConnectionStatus.Reconnecting }
    (c2.connect outcome).1
  else
    let msg := "Max reconnection attempts ("
      ++ toString p.1.max_reconnect_attempts ++ ") exceeded"
    { p.1 with connection_status := ConnectionStatus.Error msg }

/-- The only automatic (caller-less) transition of a client: the receive
loop of a connected session ends (server close or transport error,
websocket.rs lines 301-328), the loop task sets the status to
`Disconnected` (line 327) and `start_message_loop` then calls
`attempt_reconnect` (line 341).  No other code path triggers
`attempt_reconnect`. -/
inductive AutoStep : WebSocketClient → WebSocketClient → Prop
  | session_drop (c : WebSocketClient) (outcome : Option String)
      (h : c.connection_status = ConnectionStatus.Connected) :
      AutoStep c
        (WebSocketClient.attempt_reconnect
          { c with connection_status := ConnectionStatus.Disconnected } outcome)

/-- The `WebSocketManager`'s `clients` map (websocket.rs line 367),
modelled as an association list with unique keys: `insertClient` mirrors
`HashMap::insert` (any previous binding for the key is replaced) and
`eraseKey` mirrors `HashMap::remove`. -/
abbrev Registry := List (String × WebSocketClient)

/-- `HashMap::remove` on the association list. -/
def eraseKey (reg : Registry) (id : String) : Registry :=
  reg.filter (fun p => !(p.1 == id))

/-- `HashMap::insert` on the association list. -/
def insertClient (reg : Registry) (id : String) (c : WebSocketClient) :
    Registry :=
  (id, c) :: eraseKey reg id

/-- In-place mutation of the client held behind the `Arc` for `id`
(the Rust side mutates through the shared pointer; the pure model
rewrites the registry entry). -/
def updateClient (reg : Registry) (id : String) (c : WebSocketClient) :
    Registry :=
  reg.map (fun p => if p.1 == id then (id, c) else p)

namespace WebSocketManager

/-- `WebSocketManager::create_connection` (websocket.rs lines 380-403).
`connection_id` stands for the freshly generated UUID; the client is
built, given the token, stored in the map, and then connected — on
connect failure the entry is removed again and the error propagated. -/
def create_connection (reg : Registry) (connection_id url : String)
    (auth_token : Option String) (outcome : Option String) :
    Registry × Except String String :=
  let client0 := WebSocketClient.new url
  let client := match auth_token with
    | some token => client0.set_auth_token token
    | none => client0
  let reg1 := insertClient reg connection_id client
  match client.connect outcome with
  | (c1, Except.ok _) => (updateClient reg1 connection_id c1,
      Except.ok connection_id)
  | (_, Except.error e) => (eraseKey reg1 connection_id, Except.error e)

/-- `WebSocketManager::close_connection` (websocket.rs lines 406-413):
`HashMap::remove`; the removed client is disconnected and dropped. -/
def close_connection (reg : Registry) (id : String) :
    Registry × Except String Unit :=
  match List.lookup id reg with
  | some client =>
      let _ := client.disconnect
      (eraseKey reg id, Except.ok ())
  | none => (reg, Except.error ("Connection not found: " ++ id))

/-- `WebSocketManager::get_connection_status` (websocket.rs lines
416-422); read-only, so only the `Result` is returned. -/
def get_connection_status (reg : Registry) (id : String) :
    Except String ConnectionStatus :=
  match List.lookup id reg with
  | some client => Except.ok client.get_connection_status
  | none => Except.error ("Connection not found: " ++ id)

/-- `WebSocketManager::send_message` (websocket.rs lines 425-431). -/
def send_message (reg : Registry) (id : String) (m : QueuedMessage) :
    Registry × Except String Unit :=
  match List.lookup id reg with
  | some client =>
      let r := client.send_message m
      (updateClient reg id r.1, r.2)
  | none => (reg, Except.error ("Connection not found: " ++ id))

/-- `WebSocketManager::subscribe_to_consultation` (websocket.rs lines
434-440). -/
def subscribe_to_consultation (reg : Registry) (id consultation_id : String) :
    Registry × Except String Unit :=
  match List.lookup id reg with
  | some client =>
      let r := client.subscribe_to_consultation consultation_id
      (updateClient reg id r.1, r.2)
  | none => (reg, Except.error ("Connection not found: " ++ id))

/-- `WebSocketManager::unsubscribe_from_consultation` (websocket.rs
lines 443-449). -/
def unsubscribe_from_consultation (reg : Registry)
    (id consultation_id : String) : Registry × Except String Unit :=
  match List.lookup id reg with
  | some client =>
      let r := client.unsubscribe_from_consultation consultation_id
      (updateClient reg id r.1, r.2)
  | none => (reg, Except.error ("Connection not found: " ++ id))

/-- `WebSocketManager::send_read_receipt` (websocket.rs lines 452-458). -/
def send_read_receipt (reg : Registry)
    (id consultation_id message_id : String) : Registry × Except String Unit :=
  match List.lookup id reg with
  | some client =>
      let r := client.send_read_receipt consultation_id message_id
      (updateClient reg id r.1, r.2)
  | none => (reg, Except.error ("Connection not found: " ++ id))

/-- `WebSocketManager::send_typing_status` (websocket.rs lines 461-467). -/
def send_typing_status (reg : Registry) (id consultation_id : String)
    (is_typing : Bool) : Registry × Except String Unit :=
  match List.lookup id reg with
  | some client =>
      let r := client.send_typing_status consultation_id is_typing
      (updateClient reg id r.1, r.2)
  | none => (reg, Except.error ("Connection not found: " ++ id))

end WebSocketManager

/-! ### Concrete fixtures used by witnesses and counterexamples -/

/-- A queued text message with id `"a"`. -/
def mA1 : QueuedMessage :=
  { id := "a", consultation_id := "c1", message_type := MessageType.Text,
    content := "first", file_path := none, retry_count := 0, created_at := 0 }

/-- A queued text message with id `"b"`. -/
def mB : QueuedMessage :=
  { id := "b", consultation_id := "c1", message_type := MessageType.Text,
    content := "second", file_path := none, retry_count := 0, created_at := 1 }

/-- A second, distinct queued message that shares id `"a"` with `mA1`. -/
def mA2 : QueuedMessage :=
  { id := "a", consultation_id := "c1", message_type := MessageType.Text,
    content := "third", file_path := none, retry_count := 0, created_at := 2 }

/-- A delivery oracle under which exactly the messages with id `"a"`
are accepted: the status was `Connected` for the first send and had
dropped by the time the id-`"b"` send was attempted. -/
def dupDeliver : QueuedMessage → Bool := fun m => m.id == "a"

/-- A freshly constructed client (status `Disconnected`). -/
def cWs : WebSocketClient := WebSocketClient.new "ws://example"

/-- A client whose handshake has completed (status `Connected`). -/
def cConnected : WebSocketClient :=
  { cWs with connection_status := ConnectionStatus.Connected }

/-- A client that has already recorded `maxReconnectAttempts = 5`
consecutive reconnect failures. -/
def cFive : WebSocketClient := { cWs with reconnect_attempts := 5 }

/-! ### Helper lemmas -/

theorem contains_iff_mem {α : Type} [BEq α] [LawfulBEq α] (l : List α) (a : α) :
    l.contains a = true ↔ a ∈ l := by
  simp [List.contains]

theorem processedIds_append_of_all_true (deliver : QueuedMessage → Bool)
    (pre rest : List QueuedMessage) (h : ∀ x ∈ pre, deliver x = true) :
    processedIds deliver (pre ++ rest)
      = pre.map QueuedMessage.id ++ processedIds deliver rest := by
  induction pre with
  | nil => simp
  | cons x xs ih =>
      have hx : deliver x = true := h x (List.mem_cons_self x xs)
      have ih2 := ih (fun y hy => h y (List.mem_cons_of_mem x hy))
      simp [processedIds, hx, ih2]

theorem processedIds_all_true (deliver : QueuedMessage → Bool)
    (q : List QueuedMessage) (h : ∀ x ∈ q, deliver x = true) :
    processedIds deliver q = q.map QueuedMessage.id := by
  have := processedIds_append_of_all_true deliver q [] h
  simpa [processedIds] using this

theorem process_message_queue_all_true (deliver : QueuedMessage → Bool)
    (q : List QueuedMessage) (h : ∀ x ∈ q, deliver x = true) :
    process_message_queue deliver q = [] := by
  unfold process_message_queue
  rw [processedIds_all_true deliver q h]
  apply List.eq_nil_of_length_eq_zero
  rw [List.length_eq_zero]
  apply List.filter_eq_nil_iff.mpr
  intro a ha
  simp only [Bool.not_eq_true', Bool.not_eq_false]
  exact (contains_iff_mem (q.map QueuedMessage.id) a.id).mpr
    (List.mem_map_of_mem QueuedMessage.id ha)

theorem flush_loop_all_true (deliver : QueuedMessage → Bool)
    (q : List QueuedMessage) (h : ∀ x ∈ q, deliver x = true) :
    flush_loop deliver q = some (q.map QueuedMessage.id) := by
  induction q with
  | nil => rfl
  | cons m rest ih =>
      have hm : deliver m = true := h m (List.mem_cons_self m rest)
      have ih2 := ih (fun y hy => h y (List.mem_cons_of_mem m hy))
      simp [flush_loop, hm, ih2]

theorem flush_loop_none_of_failure (deliver : QueuedMessage → Bool)
    (q : List QueuedMessage) (b : QueuedMessage) (hb : b ∈ q)
    (hf : deliver b = false) : flush_loop deliver q = none := by
  induction q with
  | nil => cases hb
  | cons m rest ih =>
      by_cases hm : deliver m = true
      · have hbr : b ∈ rest := by
          cases hb with
          | head => simp [hm] at hf
          | tail _ htl => exact htl
        simp [flush_loop, hm, ih hbr]
      · have hm2 : deliver m = false := by
          cases hmm : deliver m with
          | false => rfl
          | true => exact absurd hmm hm
        simp [flush_loop, hm2]

theorem process_message_queue_run_all_true (deliver : QueuedMessage → Bool)
    (q : List QueuedMessage) (h : ∀ x ∈ q, deliver x = true) :
    process_message_queue_run deliver q = some [] := by
  simp [process_message_queue_run, flush_loop_all_true deliver q h]
  exact fun a ha => ⟨a, ha, rfl⟩

theorem process_message_queue_run_none_of_failure
    (deliver : QueuedMessage → Bool) (q : List QueuedMessage)
    (b : QueuedMessage) (hb : b ∈ q) (hf : deliver b = false) :
    process_message_queue_run deliver q = none := by
  simp [process_message_queue_run,
    flush_loop_none_of_failure deliver q b hb hf]

theorem eraseKey_of_lookup_none (reg : Registry) (id : String)
    (h : List.lookup id reg = none) : eraseKey reg id = reg := by
  induction reg with
  | nil => rfl
  | cons p t ih =>
      obtain ⟨k, c⟩ := p
      cases hk : (id == k) with
      | true => simp [List.lookup, hk] at h
      | false =>
          have h2 : List.lookup id t = none := by
            simpa [List.lookup, hk] using h
          have hk2 : (k == id) = false := by
            cases hcon : (k == id) with
            | false => rfl
            | true =>
                rw [beq_iff_eq] at hcon
                rw [hcon, beq_self_eq_true] at hk
                cases hk
          have hstep : eraseKey ((k, c) :: t) id = (k, c) :: eraseKey t id := by
            simp [eraseKey, hk2]
          rw [hstep, ih h2]

theorem eraseKey_insertClient (reg : Registry) (id : String)
    (c : WebSocketClient) :
    eraseKey (insertClient reg id c) id = eraseKey reg id := by
  simp [insertClient, eraseKey, List.filter_filter]

theorem no_autoStep_from_error (c : WebSocketClient) (e : String)
    (h : c.connection_status = ConnectionStatus.Error e) :
    ∀ c2, ¬ AutoStep c c2 := by
  intro c2 hstep
  cases hstep with
  | session_drop outcome hconn =>
      rw [h] at hconn
      cases hconn

/-! ### Claim theorems -/

/-- C1: for every client whose status is not `Connected`, `send_message`
appends the message to the back of `message_queue` (so the messages
already queued are unchanged and keep their order, and the new message
is present and never lost) and returns the non-fatal error
`"WebSocket not connected, message queued"`. -/
theorem C1_send_not_connected_queues (c : WebSocketClient) (m : QueuedMessage)
    (h : c.connection_status ≠ ConnectionStatus.Connected) :
    (c.send_message m).1.message_queue = c.message_queue ++ [m]
    ∧ m ∈ (c.send_message m).1.message_queue
    ∧ (c.send_message m).2
        = Except.error "WebSocket not connected, message queued" := by
  simp [WebSocketClient.send_message, WebSocketClient.add_to_queue, h]

/-- Witness for C1 at a fresh (disconnected) client and `mA1`. -/
theorem C1_send_not_connected_queues_witness :
    cWs.connection_status ≠ ConnectionStatus.Connected
    ∧ ((cWs.send_message mA1).1.message_queue = cWs.message_queue ++ [mA1]
      ∧ mA1 ∈ (cWs.send_message mA1).1.message_queue
      ∧ (cWs.send_message mA1).2
          = Except.error "WebSocket not connected, message queued") :=
  ⟨by decide, C1_send_not_connected_queues cWs mA1 (by decide)⟩

/-- C9: when the status is `Connected`, `send_message` only builds,
serializes and logs the event — there is no fallible network write — so
it always returns `Ok` and leaves the client, in particular its
`message_queue`, unchanged. -/
theorem C9_send_connected_is_ok (c : WebSocketClient) (m : QueuedMessage)
    (h : c.connection_status = ConnectionStatus.Connected) :
    (c.send_message m).2 = Except.ok ()
    ∧ (c.send_message m).1 = c
    ∧ (c.send_message m).1.message_queue = c.message_queue := by
  simp [WebSocketClient.send_message, h]

/-- Witness for C9 at a connected client and `mA1`. -/
theorem C9_send_connected_is_ok_witness :
    cConnected.connection_status = ConnectionStatus.Connected
    ∧ ((cConnected.send_message mA1).2 = Except.ok ()
      ∧ (cConnected.send_message mA1).1 = cConnected
      ∧ (cConnected.send_message mA1).1.message_queue
          = cConnected.message_queue) :=
  ⟨by decide, C9_send_connected_is_ok cConnected mA1 (by decide)⟩

/-- C8: `subscribe_to_consultation` does not modify the client state at
all (the source keeps no subscription set — the control frame is only
serialized and logged), so subscribing twice with the same consultation
id leaves the channel state, and with it any subscription information it
carries, exactly equal to subscribing once. -/
theorem C8_subscribe_idempotent (c : WebSocketClient) (cid : String) :
    (c.subscribe_to_consultation cid).1 = c
    ∧ ((c.subscribe_to_consultation cid).1.subscribe_to_consultation cid).1
        = (c.subscribe_to_consultation cid).1 :=
  ⟨rfl, rfl⟩

/-- C2: the stop-at-first-failure flush the claim (and the spec, and
the source's own `break` / "remove successfully sent" comments)
describe is never executed by the code: evaluating the faithful flush
model at the failing input — first send succeeds, second fails — the
run does not complete (`none`).  The failing `send_message` re-locks
the `message_queue` mutex already held by `process_message_queue`
inside `add_to_queue` and deadlocks, so `break` and `retain` are never
reached and no message is removed (the failed message would moreover
be re-appended). -/
theorem C2_flush_failure_deadlocks :
    dupDeliver mA1 = true ∧ dupDeliver mB = false
    ∧ process_message_queue_run dupDeliver [mA1, mB, mA2] = none := by
  decide

/-- C10 counterexample: the claimed scenario — `mA1` delivered, a later
send failing, `retain` then dropping the duplicate `mA2` undelivered —
never occurs: a run in which any send fails does not complete (the
failing send deadlocks inside `add_to_queue` before `break`/`retain`),
so no completed run exists at this input and nothing is removed from
the queue. -/
theorem C10_counterexample :
    mA1.id = mA2.id ∧ dupDeliver mA1 = true
    ∧ process_message_queue_run dupDeliver [mA1, mB, mA2] = none := by
  decide

/-- C10 amended: a flush run completes exactly when every send
succeeds; in that case removal is by id membership and clears the
entire queue — duplicate-id entries included, each of them having been
attempted — while a run in which some send fails never completes and
removes nothing, so a later duplicate is never silently dropped
undelivered. -/
theorem C10_amended_flush_all_or_nothing (deliver : QueuedMessage → Bool)
    (q : List QueuedMessage) :
    ((∀ x ∈ q, deliver x = true) →
      process_message_queue_run deliver q = some [])
    ∧ (∀ b ∈ q, deliver b = false →
      process_message_queue_run deliver q = none) :=
  ⟨fun h => process_message_queue_run_all_true deliver q h,
   fun b hb hf => process_message_queue_run_none_of_failure deliver q b hb hf⟩

/-- Witness for the amended C10: a completing all-success run on
`[mA1, mA2]` clears the queue, and the run on `[mA1, mB, mA2]` in
which `mB`'s send fails never completes. -/
theorem C10_amended_flush_all_or_nothing_witness :
    (∀ x ∈ [mA1, mA2], dupDeliver x = true)
    ∧ process_message_queue_run dupDeliver [mA1, mA2] = some []
    ∧ mB ∈ [mA1, mB, mA2] ∧ dupDeliver mB = false
    ∧ process_message_queue_run dupDeliver [mA1, mB, mA2] = none :=
  ⟨by decide,
    (C10_amended_flush_all_or_nothing dupDeliver [mA1, mA2]).1 (by decide),
    by decide, by decide,
    (C10_amended_flush_all_or_nothing dupDeliver [mA1, mB, mA2]).2 mB
      (by decide) (by decide)⟩

/-- C3 counterexample: when the reconnect-attempt limit is exceeded the
status the code actually sets is
`Error "Max reconnection attempts (5) exceeded"`, not the
`Error "max reconnection attempts exceeded"` stated by the claim.
`cFive` has already recorded 5 consecutive failures; one more
`attempt_reconnect` exceeds the limit. -/
theorem C3_counterexample :
    (cFive.attempt_reconnect none).connection_status
      ≠ ConnectionStatus.Error "max reconnection attempts exceeded"
    ∧ (cFive.attempt_reconnect none).connection_status
      = ConnectionStatus.Error "Max reconnection attempts (5) exceeded" := by
  decide

/-- C3 amended: once `reconnectAttempts` has reached
`maxReconnectAttempts` (default 5), the next `attempt_reconnect`
exceeds the limit, sets the status to the terminal
`Error "Max reconnection attempts (5) exceeded"`, and from that state
no automatic reconnect is ever attempted again: the only automatic
transition (`AutoStep`) requires status `Connected`, so the `Error`
state is stable until an explicit `connect()` or `close()`. -/
theorem C3_amended_terminal_error (c : WebSocketClient) (o : Option String)
    (hmax : c.max_reconnect_attempts = 5) (h : 5 ≤ c.reconnect_attempts) :
    (c.attempt_reconnect o).connection_status
      = ConnectionStatus.Error "Max reconnection attempts (5) exceeded"
    ∧ ∀ c2, ¬ AutoStep (c.attempt_reconnect o) c2 := by
  have hstat : (c.attempt_reconnect o).connection_status
      = ConnectionStatus.Error "Max reconnection attempts (5) exceeded" := by
    simp only [WebSocketClient.attempt_reconnect,
      WebSocketClient.increment_reconnect_attempts]
    rw [hmax]
    rw [if_neg (by omega)]
    simp only [ConnectionStatus.Error.injEq]
    decide
  exact ⟨hstat, no_autoStep_from_error _ _ hstat⟩

/-- Witness for the amended C3 at `cFive`. -/
theorem C3_amended_terminal_error_witness :
    cFive.max_reconnect_attempts = 5 ∧ 5 ≤ cFive.reconnect_attempts
    ∧ (cFive.attempt_reconnect none).connection_status
        = ConnectionStatus.Error "Max reconnection attempts (5) exceeded" :=
  ⟨by decide, by decide,
    (C3_amended_terminal_error cFive none (by decide) (by decide)).1⟩

/-- C4 counterexample: `create_connection` to an unreachable endpoint
removes the freshly registered client again before propagating the
connect error, so the channel is NOT resolvable by its id afterwards —
contradicting the claim that a partially-failed Channel stays in the
registry with status `Error`. -/
theorem C4_counterexample :
    List.lookup "conn-1"
      (WebSocketManager.create_connection [] "conn-1" "ws://unreachable" none
        (some "connection refused")).1 = none
    ∧ (WebSocketManager.create_connection [] "conn-1" "ws://unreachable" none
        (some "connection refused")).2
      = Except.error "WebSocket connection failed: connection refused" :=
  ⟨rfl, rfl⟩

/-- C4 amended: when the initial connect fails, `create_connection`
propagates the connection error to the caller but removes the channel
from the registry again: the registry is exactly as before the call and
the id does not resolve (fail-closed, not fail-retained). -/
theorem C4_amended_removed_on_connect_failure (reg : Registry)
    (id url : String) (tok : Option String) (e : String)
    (hfresh : List.lookup id reg = none) :
    (WebSocketManager.create_connection reg id url tok (some e)).1 = reg
    ∧ (WebSocketManager.create_connection reg id url tok (some e)).2
        = Except.error ("WebSocket connection failed: " ++ e)
    ∧ List.lookup id
        (WebSocketManager.create_connection reg id url tok (some e)).1
      = none := by
  have hreg : (WebSocketManager.create_connection reg id url tok (some e)).1
      = reg := by
    simp only [WebSocketManager.create_connection, WebSocketClient.connect]
    rw [eraseKey_insertClient, eraseKey_of_lookup_none reg id hfresh]
  refine ⟨hreg, ?_, ?_⟩
  · simp [WebSocketManager.create_connection, WebSocketClient.connect]
  · rw [hreg]
    exact hfresh

/-- Witness for the amended C4 on the empty registry. -/
theorem C4_amended_removed_on_connect_failure_witness :
    List.lookup "conn-1" ([] : Registry) = none
    ∧ (WebSocketManager.create_connection [] "conn-1" "ws://unreachable" none
        (some "refused")).1 = []
    ∧ (WebSocketManager.create_connection [] "conn-1" "ws://unreachable" none
        (some "refused")).2
        = Except.error ("WebSocket connection failed: " ++ "refused") :=
  ⟨by decide,
    (C4_amended_removed_on_connect_failure [] "conn-1" "ws://unreachable" none
      "refused" (by decide)).1,
    (C4_amended_removed_on_connect_failure [] "conn-1" "ws://unreachable" none
      "refused" (by decide)).2.1⟩

/-- C5 counterexample: `connect` has no guard on the current status.
Calling it on an already-`Connected` channel whose handshake attempt
fails overwrites the status with `Error`, so it is not a no-op. -/
theorem C5_counterexample :
    (cConnected.connect (some "connection refused")).1.connection_status
      = ConnectionStatus.Error "WebSocket connection failed: connection refused"
    ∧ (cConnected.connect (some "connection refused")).1 ≠ cConnected := by
  decide

/-- C5 amended: `connect()` is not idempotent — it is not guarded on the
current status.  Even from `Connecting`/`Connected` it unconditionally
starts a fresh handshake: on failure the status is overwritten with
`Error`, on success the connected path re-runs (status `Connected`,
`reconnectAttempts` reset to 0, queue flushed). -/
theorem C5_amended_connect_unguarded (c : WebSocketClient) (e : String)
    (_h : c.connection_status = ConnectionStatus.Connecting
       ∨ c.connection_status = ConnectionStatus.Connected) :
    (c.connect (some e)).1.connection_status
      = ConnectionStatus.Error ("WebSocket connection failed: " ++ e)
    ∧ (c.connect none).1.connection_status = ConnectionStatus.Connected
    ∧ (c.connect none).1.reconnect_attempts = 0 := by
  refine ⟨?_, ?_, ?_⟩ <;> simp [WebSocketClient.connect]

/-- Witness for the amended C5 at an already-connected client. -/
theorem C5_amended_connect_unguarded_witness :
    (cConnected.connection_status = ConnectionStatus.Connecting
      ∨ cConnected.connection_status = ConnectionStatus.Connected)
    ∧ (cConnected.connect (some "refused")).1.connection_status
        = ConnectionStatus.Error ("WebSocket connection failed: " ++ "refused") :=
  ⟨by decide,
    (C5_amended_connect_unguarded cConnected "refused" (by decide)).1⟩

/-- C6: a failed reconnect attempt increments `reconnectAttempts` by
exactly 1 (the failing `connect` call inside `attempt_reconnect` does
not touch the counter), and a successful `connect` sets the status to
`Connected`, resets the counter to 0, and immediately flushes the
outbound queue (every send of that flush succeeds because the status
just became `Connected`, so the queue is processed and, in fact,
emptied). -/
theorem C6_reconnect_counter_and_reset (c : WebSocketClient) (e : String) :
    (c.attempt_reconnect (some e)).reconnect_attempts
      = c.reconnect_attempts + 1
    ∧ (c.connect none).1.connection_status = ConnectionStatus.Connected
    ∧ (c.connect none).1.reconnect_attempts = 0
    ∧ (c.connect none).1.message_queue
        = process_message_queue (fun _ => true) c.message_queue
    ∧ (c.connect none).1.message_queue = [] := by
  refine ⟨?_, ?_, ?_, ?_, ?_⟩
  · by_cases hcond : c.reconnect_attempts + 1 ≤ c.max_reconnect_attempts
    · simp [WebSocketClient.attempt_reconnect,
        WebSocketClient.increment_reconnect_attempts,
        WebSocketClient.connect, hcond]
    · simp [WebSocketClient.attempt_reconnect,
        WebSocketClient.increment_reconnect_attempts, hcond]
  · simp [WebSocketClient.connect]
  · simp [WebSocketClient.connect]
  · simp [WebSocketClient.connect]
  · simp [WebSocketClient.connect,
      process_message_queue_all_true (fun _ => true) c.message_queue
        (fun x _ => rfl)]

/-- C7: every registry operation invoked with an id that is not in the
map synchronously returns the `"Connection not found: …"` error and
leaves the registry — and with it every existing channel — unchanged. -/
theorem C7_registry_not_found (reg : Registry) (id : String)
    (m : QueuedMessage) (cid mid : String) (t : Bool)
    (h : List.lookup id reg = none) :
    WebSocketManager.close_connection reg id
      = (reg, Except.error ("Connection not found: " ++ id))
    ∧ WebSocketManager.get_connection_status reg id
      = Except.error ("Connection not found: " ++ id)
    ∧ WebSocketManager.send_message reg id m
      = (reg, Except.error ("Connection not found: " ++ id))
    ∧ WebSocketManager.subscribe_to_consultation reg id cid
      = (reg, Except.error ("Connection not found: " ++ id))
    ∧ WebSocketManager.unsubscribe_from_consultation reg id cid
      = (reg, Except.error ("Connection not found: " ++ id))
    ∧ WebSocketManager.send_read_receipt reg id cid mid
      = (reg, Except.error ("Connection not found: " ++ id))
    ∧ WebSocketManager.send_typing_status reg id cid t
      = (reg, Except.error ("Connection not found: " ++ id)) := by
  refine ⟨?_, ?_, ?_, ?_, ?_, ?_, ?_⟩ <;>
    simp [WebSocketManager.close_connection,
      WebSocketManager.get_connection_status, WebSocketManager.send_message,
      WebSocketManager.subscribe_to_consultation,
      WebSocketManager.unsubscribe_from_consultation,
      WebSocketManager.send_read_receipt,
      WebSocketManager.send_typing_status, h]

/-- Witness for C7 on the empty registry and the never-opened id
`"ghost"`. -/
theorem C7_registry_not_found_witness :
    List.lookup "ghost" ([] : Registry) = none
    ∧ WebSocketManager.close_connection [] "ghost"
      = ([], Except.error ("Connection not found: " ++ "ghost"))
    ∧ WebSocketManager.send_message [] "ghost" mA1
      = ([], Except.error ("Connection not found: " ++ "ghost")) :=
  ⟨by decide,
    (C7_registry_not_found [] "ghost" mA1 "c1" "m1" true (by decide)).1,
    (C7_registry_not_found [] "ghost" mA1 "c1" "m1" true (by decide)).2.2.1⟩

end Telemed
